import Mathlib

/-!
Shallow embedding of src/src/param/positional.cpp (class PositionalNearestNeighbor).

The C++ code holds, for each feature, a pair of numpy tables
(score_T read-only, count_T mutable).  We model the address of a table
entry as an inductive type Entry, and a full bundle of tables as a
function Entry → ℚ.  The numeric type `ScoreType` (double in the C++)
is modelled as the exact rationals: the claims under study concern which
entries are read and written and the additive structure of the results,
not floating-point rounding.

Index arithmetic is on size_t (unsigned 64-bit): positions are naturals
that stand for size_t values (< 2^64); the length computations of the
form (b-1)-(a+1)+1 are embedded exactly as arithmetic modulo 2^64
(len64), and the index clamps std::min<u_int32_t>(l, 30) and
std::min<u_int16_t>(ll, 30) are embedded with the explicit truncations
l % 2^32 (u32) and ll % 2^16 (u16) that the C++ conversions perform.
-/

namespace PositionalNearestNeighbor

abbrev ScoreType := ℚ

/-- Address of one entry of one of the parameter tables declared in the
constructor (positional.cpp lines 12-43).  The same address type serves
the score tables and the count tables, which are shape-identical. -/
inductive Entry : Type
  | helix_stacking (a b : ℕ)
  | mismatch_external (a b : ℕ)
  | mismatch_hairpin (a b : ℕ)
  | mismatch_internal (a b : ℕ)
  | mismatch_multi (a b : ℕ)
  | base_hairpin (a b : ℕ)
  | base_internal (a b : ℕ)
  | base_multi (a b : ℕ)
  | base_external (a b : ℕ)
  | hairpin_length (n : ℕ)
  | bulge_length (n : ℕ)
  | internal_length (n : ℕ)
  | internal_explicit (a b : ℕ)
  | internal_symmetry (n : ℕ)
  | internal_asymmetry (n : ℕ)
  deriving DecidableEq

/-- A bundle of tables: the value stored at each entry address. -/
abbrev Tables := Entry → ScoreType

/-- `count_T_(idx) += v` : pointwise additive update of one entry. -/
def upd (T : Tables) (e : Entry) (v : ScoreType) : Tables :=
  fun x => if x = e then T x + v else T x

/-- Conversion of a size_t value to u_int32_t, as performed by
std::min<u_int32_t>(l, 30) on its first argument. -/
def u32 (n : ℕ) : ℕ := n % 2 ^ 32

/-- Conversion of a size_t value to u_int16_t, as performed by
std::min<u_int16_t>(ll, 30) on its first argument. -/
def u16 (n : ℕ) : ℕ := n % 2 ^ 16

/-- The size_t computation (b-1)-(a+1)+1 : unsigned arithmetic modulo
2^64, exact for size_t inputs a, b < 2^64. -/
def len64 (a b : ℕ) : ℕ := (((b : ℤ) - (a : ℤ) - 1) % (2 ^ 64 : ℤ)).toNat

/-- score_hairpin (positional.cpp lines 48-60). -/
def score_hairpin (T : Tables) (i j : ℕ) : ScoreType :=
  let l := len64 i j
  T (.hairpin_length (min (u32 l) 30))
    + T (.base_hairpin (i + 1) (j - 1))
    + T (.mismatch_hairpin i j)

/-- count_hairpin (positional.cpp lines 62-76): the active `#else`
branch updates the length table only when l <= 30 (full size_t width),
then adds v into base_hairpin(i+1, j-1) and mismatch_hairpin(i, j). -/
def count_hairpin (i j : ℕ) (v : ScoreType) (T : Tables) : Tables :=
  let l := len64 i j
  let T1 := if l ≤ 30 then upd T (.hairpin_length l) v else T
  let T2 := upd T1 (.base_hairpin (i + 1) (j - 1)) v
  upd T2 (.mismatch_hairpin i j) v

/-- score_single_loop (positional.cpp lines 78-112).  l1, l2 are the two
flanking run lengths, (ls, ll) = minmax(l1, l2).  The bulge branch
clamps with std::min<u_int16_t> (16-bit truncation), the internal branch
with std::min<u_int32_t>; the sum ls+ll is size_t arithmetic mod 2^64. -/
def score_single_loop (T : Tables) (i j k l : ℕ) : ScoreType :=
  let l1 := len64 i k
  let l2 := len64 l j
  let ls := min l1 l2
  let ll := max l1 l2
  if ll = 0 then
    T (.helix_stacking i j) + T (.helix_stacking l k)
  else if ls = 0 then
    T (.bulge_length (min (u16 ll) 30))
      + T (.base_internal (i + 1) (k - 1)) + T (.base_internal (l + 1) (j - 1))
      + T (.mismatch_internal i j) + T (.mismatch_internal l k)
  else
    T (.internal_length (min (u32 ((ls + ll) % 2 ^ 64)) 30))
      + T (.base_internal (i + 1) (k - 1)) + T (.base_internal (l + 1) (j - 1))
      + T (.internal_explicit (min (u32 ls) 4) (min (u32 ll) 4))
      + (if ls = ll then T (.internal_symmetry (min (u32 ll) 15)) else 0)
      + T (.internal_asymmetry (min (u32 (ll - ls)) 28))
      + T (.mismatch_internal i j) + T (.mismatch_internal l k)

/-- count_single_loop (positional.cpp lines 114-157).  The active
`#else` branches guard the 1-D length-table updates by the full-width
raw length (ll <= 30, ls+ll <= 30) and index by the raw length; all
other updates use the same clamped indices the scoring path reads. -/
def count_single_loop (i j k l : ℕ) (v : ScoreType) (T : Tables) : Tables :=
  let l1 := len64 i k
  let l2 := len64 l j
  let ls := min l1 l2
  let ll := max l1 l2
  if ll = 0 then
    upd (upd T (.helix_stacking i j) v) (.helix_stacking l k) v
  else if ls = 0 then
    let T1 := if ll ≤ 30 then upd T (.bulge_length ll) v else T
    let T2 := upd T1 (.base_internal (i + 1) (k - 1)) v
    let T3 := upd T2 (.base_internal (l + 1) (j - 1)) v
    let T4 := upd T3 (.mismatch_internal i j) v
    upd T4 (.mismatch_internal l k) v
  else
    let sl := (ls + ll) % 2 ^ 64
    let T1 := if sl ≤ 30 then upd T (.internal_length sl) v else T
    let T2 := upd T1 (.base_internal (i + 1) (k - 1)) v
    let T3 := upd T2 (.base_internal (l + 1) (j - 1)) v
    let T4 := upd T3 (.internal_explicit (min (u32 ls) 4) (min (u32 ll) 4)) v
    let T5 := if ls = ll then upd T4 (.internal_symmetry (min (u32 ll) 15)) v else T4
    let T6 := upd T5 (.internal_asymmetry (min (u32 (ll - ls)) 28)) v
    upd (upd T6 (.mismatch_internal i j) v) (.mismatch_internal l k) v

/-- score_multi_loop (positional.cpp lines 159-164). -/
def score_multi_loop (T : Tables) (i j : ℕ) : ScoreType :=
  T (.mismatch_multi i j)

/-- count_multi_loop (positional.cpp lines 166-171). -/
def count_multi_loop (i j : ℕ) (v : ScoreType) (T : Tables) : Tables :=
  upd T (.mismatch_multi i j) v

/-- score_multi_paired (positional.cpp lines 173-178): transposed read. -/
def score_multi_paired (T : Tables) (i j : ℕ) : ScoreType :=
  T (.mismatch_multi j i)

/-- count_multi_paired (positional.cpp lines 180-185): transposed write. -/
def count_multi_paired (i j : ℕ) (v : ScoreType) (T : Tables) : Tables :=
  upd T (.mismatch_multi j i) v

/-- score_multi_unpaired (positional.cpp lines 187-192). -/
def score_multi_unpaired (T : Tables) (i j : ℕ) : ScoreType :=
  T (.base_multi i j)

/-- count_multi_unpaired (positional.cpp lines 194-199). -/
def count_multi_unpaired (i j : ℕ) (v : ScoreType) (T : Tables) : Tables :=
  upd T (.base_multi i j) v

/-- score_external_paired (positional.cpp lines 201-206): transposed read. -/
def score_external_paired (T : Tables) (i j : ℕ) : ScoreType :=
  T (.mismatch_external j i)

/-- count_external_paired (positional.cpp lines 208-213): transposed write. -/
def count_external_paired (i j : ℕ) (v : ScoreType) (T : Tables) : Tables :=
  upd T (.mismatch_external j i) v

/-- score_external_unpaired (positional.cpp lines 215-220). -/
def score_external_unpaired (T : Tables) (i j : ℕ) : ScoreType :=
  T (.base_external i j)

/-- count_external_unpaired (positional.cpp lines 222-227). -/
def count_external_unpaired (i j : ℕ) (v : ScoreType) (T : Tables) : Tables :=
  upd T (.base_external i j) v

/-! ### Derived artifacts for stating the claims -/

/-- Indicator of a decidable proposition, as a score value. -/
def ind (p : Prop) [Decidable p] : ScoreType := if p then 1 else 0

/-- The three 1-D length tables subject to the documented clamp/skip
asymmetry (hairpin_length, bulge_length, internal_length). -/
def isLenTab (e : Entry) : Bool :=
  match e with
  | .hairpin_length _ => true
  | .bulge_length _ => true
  | .internal_length _ => true
  | _ => false

/-- The list of table entries read by score_hairpin(i, j), in reading
order. -/
def reads_hairpin (i j : ℕ) : List Entry :=
  [.hairpin_length (min (u32 (len64 i j)) 30),
   .base_hairpin (i + 1) (j - 1),
   .mismatch_hairpin i j]

/-- The list of table entries read by score_single_loop(i, j, k, l), in
reading order. -/
def reads_single_loop (i j k l : ℕ) : List Entry :=
  let l1 := len64 i k
  let l2 := len64 l j
  let ls := min l1 l2
  let ll := max l1 l2
  if ll = 0 then
    [.helix_stacking i j, .helix_stacking l k]
  else if ls = 0 then
    [.bulge_length (min (u16 ll) 30),
     .base_internal (i + 1) (k - 1), .base_internal (l + 1) (j - 1),
     .mismatch_internal i j, .mismatch_internal l k]
  else
    [.internal_length (min (u32 ((ls + ll) % 2 ^ 64)) 30),
     .base_internal (i + 1) (k - 1), .base_internal (l + 1) (j - 1),
     .internal_explicit (min (u32 ls) 4) (min (u32 ll) 4)]
    ++ (if ls = ll then [.internal_symmetry (min (u32 ll) 15)] else [])
    ++ [.internal_asymmetry (min (u32 (ll - ls)) 28),
        .mismatch_internal i j, .mismatch_internal l k]

/-- Entries read by score_multi_loop. -/
def reads_multi_loop (i j : ℕ) : List Entry := [.mismatch_multi i j]

/-- Entries read by score_multi_paired. -/
def reads_multi_paired (i j : ℕ) : List Entry := [.mismatch_multi j i]

/-- Entries read by score_multi_unpaired. -/
def reads_multi_unpaired (i j : ℕ) : List Entry := [.base_multi i j]

/-- Entries read by score_external_paired. -/
def reads_external_paired (i j : ℕ) : List Entry := [.mismatch_external j i]

/-- Entries read by score_external_unpaired. -/
def reads_external_unpaired (i j : ℕ) : List Entry := [.base_external i j]

/-- How much count_hairpin(i, j, v) adds at entry e, per unit of v. -/
def mult_hairpin (i j : ℕ) (e : Entry) : ScoreType :=
  ind (len64 i j ≤ 30 ∧ e = .hairpin_length (len64 i j))
    + ind (e = .base_hairpin (i + 1) (j - 1))
    + ind (e = .mismatch_hairpin i j)

/-- How much count_single_loop(i, j, k, l, v) adds at entry e, per unit
of v. -/
def mult_single_loop (i j k l : ℕ) (e : Entry) : ScoreType :=
  let l1 := len64 i k
  let l2 := len64 l j
  let ls := min l1 l2
  let ll := max l1 l2
  if ll = 0 then
    ind (e = .helix_stacking i j) + ind (e = .helix_stacking l k)
  else if ls = 0 then
    ind (ll ≤ 30 ∧ e = .bulge_length ll)
      + ind (e = .base_internal (i + 1) (k - 1))
      + ind (e = .base_internal (l + 1) (j - 1))
      + ind (e = .mismatch_internal i j) + ind (e = .mismatch_internal l k)
  else
    let sl := (ls + ll) % 2 ^ 64
    ind (sl ≤ 30 ∧ e = .internal_length sl)
      + ind (e = .base_internal (i + 1) (k - 1))
      + ind (e = .base_internal (l + 1) (j - 1))
      + ind (e = .internal_explicit (min (u32 ls) 4) (min (u32 ll) 4))
      + ind (ls = ll ∧ e = .internal_symmetry (min (u32 ll) 15))
      + ind (e = .internal_asymmetry (min (u32 (ll - ls)) 28))
      + ind (e = .mismatch_internal i j) + ind (e = .mismatch_internal l k)

/-- Loop kinds of the single-loop classifier (spec section 4.3). -/
inductive LoopKind : Type
  | stack
  | bulge
  | internal
  deriving DecidableEq

/-- LoopClassifier of spec section 4.3: pure function of the two
flanking run lengths, with the same branch order as the code (ll == 0
checked before ls == 0). -/
def classify (l1 l2 : ℕ) : LoopKind :=
  let ls := min l1 l2
  let ll := max l1 l2
  if ll = 0 then .stack else if ls = 0 then .bulge else .internal

/-- Stack-branch contribution of score_single_loop. -/
def stack_score (T : Tables) (i j k l : ℕ) : ScoreType :=
  T (.helix_stacking i j) + T (.helix_stacking l k)

/-- Bulge-branch contribution of score_single_loop. -/
def bulge_score (T : Tables) (i j k l : ℕ) : ScoreType :=
  let ll := max (len64 i k) (len64 l j)
  T (.bulge_length (min (u16 ll) 30))
    + T (.base_internal (i + 1) (k - 1)) + T (.base_internal (l + 1) (j - 1))
    + T (.mismatch_internal i j) + T (.mismatch_internal l k)

/-- Internal-branch contribution of score_single_loop. -/
def internal_score (T : Tables) (i j k l : ℕ) : ScoreType :=
  let l1 := len64 i k
  let l2 := len64 l j
  let ls := min l1 l2
  let ll := max l1 l2
  T (.internal_length (min (u32 ((ls + ll) % 2 ^ 64)) 30))
    + T (.base_internal (i + 1) (k - 1)) + T (.base_internal (l + 1) (j - 1))
    + T (.internal_explicit (min (u32 ls) 4) (min (u32 ll) 4))
    + (if ls = ll then T (.internal_symmetry (min (u32 ll) 15)) else 0)
    + T (.internal_asymmetry (min (u32 (ll - ls)) 28))
    + T (.mismatch_internal i j) + T (.mismatch_internal l k)

/-- Stack-branch update of count_single_loop. -/
def stack_count (i j k l : ℕ) (v : ScoreType) (T : Tables) : Tables :=
  upd (upd T (.helix_stacking i j) v) (.helix_stacking l k) v

/-- Bulge-branch update of count_single_loop. -/
def bulge_count (i j k l : ℕ) (v : ScoreType) (T : Tables) : Tables :=
  let ll := max (len64 i k) (len64 l j)
  let T1 := if ll ≤ 30 then upd T (.bulge_length ll) v else T
  let T2 := upd T1 (.base_internal (i + 1) (k - 1)) v
  let T3 := upd T2 (.base_internal (l + 1) (j - 1)) v
  let T4 := upd T3 (.mismatch_internal i j) v
  upd T4 (.mismatch_internal l k) v

/-- Internal-branch update of count_single_loop. -/
def internal_count (i j k l : ℕ) (v : ScoreType) (T : Tables) : Tables :=
  let l1 := len64 i k
  let l2 := len64 l j
  let ls := min l1 l2
  let ll := max l1 l2
  let sl := (ls + ll) % 2 ^ 64
  let T1 := if sl ≤ 30 then upd T (.internal_length sl) v else T
  let T2 := upd T1 (.base_internal (i + 1) (k - 1)) v
  let T3 := upd T2 (.base_internal (l + 1) (j - 1)) v
  let T4 := upd T3 (.internal_explicit (min (u32 ls) 4) (min (u32 ll) 4)) v
  let T5 := if ls = ll then upd T4 (.internal_symmetry (min (u32 ll) 15)) v else T4
  let T6 := upd T5 (.internal_asymmetry (min (u32 (ll - ls)) 28)) v
  upd (upd T6 (.mismatch_internal i j) v) (.mismatch_internal l k) v

/-! ### Basic lemmas about updates and lengths -/

lemma upd_apply (T : Tables) (e : Entry) (v : ScoreType) (x : Entry) :
    upd T e v x = T x + v * ind (x = e) := by
  simp only [upd, ind]
  split_ifs <;> ring

lemma gupd_apply (c : Prop) [Decidable c] (T : Tables) (e : Entry)
    (v : ScoreType) (x : Entry) :
    (if c then upd T e v else T) x = T x + v * ind (c ∧ x = e) := by
  by_cases h : c
  · simp only [if_pos h, upd_apply, ind]
    by_cases hx : x = e <;> simp [h, hx]
  · have hc : ¬(c ∧ x = e) := fun hc => h hc.1
    simp only [if_neg h, ind, if_neg hc]
    ring

lemma len64_eq_of_lt (a b : ℕ) (h : a < b) (hb : b - a - 1 < 2 ^ 64) :
    len64 a b = b - a - 1 := by
  unfold len64
  have h64 : (2 : ℤ) ^ 64 = 18446744073709551616 := by norm_num
  have h64n : (2 : ℕ) ^ 64 = 18446744073709551616 := by norm_num
  rw [h64]
  rw [h64n] at hb
  omega

lemma len64_shift (i d : ℕ) (hd : d < 2 ^ 64) : len64 i (i + 1 + d) = d := by
  have h := len64_eq_of_lt i (i + 1 + d) (by omega) (by omega)
  omega

/-! ### Branch-selection lemmas for the single-loop operations -/

lemma score_single_loop_stack (T : Tables) (i j k l : ℕ)
    (h : max (len64 i k) (len64 l j) = 0) :
    score_single_loop T i j k l = stack_score T i j k l := by
  simp only [score_single_loop, stack_score, h, if_pos]

lemma score_single_loop_bulge (T : Tables) (i j k l : ℕ)
    (h0 : max (len64 i k) (len64 l j) ≠ 0)
    (h1 : min (len64 i k) (len64 l j) = 0) :
    score_single_loop T i j k l = bulge_score T i j k l := by
  simp only [score_single_loop, bulge_score, h0, h1, if_neg, if_pos,
    if_false, if_true]

lemma score_single_loop_internal (T : Tables) (i j k l : ℕ)
    (h0 : max (len64 i k) (len64 l j) ≠ 0)
    (h1 : min (len64 i k) (len64 l j) ≠ 0) :
    score_single_loop T i j k l = internal_score T i j k l := by
  simp only [score_single_loop, internal_score, h0, h1, if_neg, if_false]

lemma count_single_loop_stack (i j k l : ℕ) (v : ScoreType) (T : Tables)
    (h : max (len64 i k) (len64 l j) = 0) :
    count_single_loop i j k l v T = stack_count i j k l v T := by
  simp only [count_single_loop, stack_count, h, if_pos]

lemma count_single_loop_bulge (i j k l : ℕ) (v : ScoreType) (T : Tables)
    (h0 : max (len64 i k) (len64 l j) ≠ 0)
    (h1 : min (len64 i k) (len64 l j) = 0) :
    count_single_loop i j k l v T = bulge_count i j k l v T := by
  simp only [count_single_loop, bulge_count, h0, h1, if_neg, if_pos,
    if_false, if_true]

lemma count_single_loop_internal (i j k l : ℕ) (v : ScoreType) (T : Tables)
    (h0 : max (len64 i k) (len64 l j) ≠ 0)
    (h1 : min (len64 i k) (len64 l j) ≠ 0) :
    count_single_loop i j k l v T = internal_count i j k l v T := by
  simp only [count_single_loop, internal_count, h0, h1, if_neg, if_false]

/-! ### Pointwise characterization of the count operations -/

lemma count_hairpin_apply (i j : ℕ) (v : ScoreType) (T : Tables) (e : Entry) :
    count_hairpin i j v T e = T e + v * mult_hairpin i j e := by
  simp only [count_hairpin, mult_hairpin, upd_apply, gupd_apply]
  ring

lemma stack_count_apply (i j k l : ℕ) (v : ScoreType) (T : Tables) (e : Entry) :
    stack_count i j k l v T e =
      T e + v * (ind (e = Entry.helix_stacking i j)
        + ind (e = Entry.helix_stacking l k)) := by
  simp only [stack_count, upd_apply]
  ring

lemma bulge_count_apply (i j k l : ℕ) (v : ScoreType) (T : Tables) (e : Entry) :
    bulge_count i j k l v T e =
      T e + v * (ind (max (len64 i k) (len64 l j) ≤ 30 ∧
          e = Entry.bulge_length (max (len64 i k) (len64 l j)))
        + ind (e = Entry.base_internal (i + 1) (k - 1))
        + ind (e = Entry.base_internal (l + 1) (j - 1))
        + ind (e = Entry.mismatch_internal i j)
        + ind (e = Entry.mismatch_internal l k)) := by
  simp only [bulge_count, upd_apply, gupd_apply]
  ring

lemma internal_count_apply (i j k l : ℕ) (v : ScoreType) (T : Tables) (e : Entry) :
    internal_count i j k l v T e =
      T e + v * (ind ((min (len64 i k) (len64 l j) + max (len64 i k) (len64 l j)) % 2 ^ 64 ≤ 30 ∧
          e = Entry.internal_length
            ((min (len64 i k) (len64 l j) + max (len64 i k) (len64 l j)) % 2 ^ 64))
        + ind (e = Entry.base_internal (i + 1) (k - 1))
        + ind (e = Entry.base_internal (l + 1) (j - 1))
        + ind (e = Entry.internal_explicit (min (u32 (min (len64 i k) (len64 l j))) 4)
            (min (u32 (max (len64 i k) (len64 l j))) 4))
        + ind (min (len64 i k) (len64 l j) = max (len64 i k) (len64 l j) ∧
            e = Entry.internal_symmetry (min (u32 (max (len64 i k) (len64 l j))) 15))
        + ind (e = Entry.internal_asymmetry
            (min (u32 (max (len64 i k) (len64 l j) - min (len64 i k) (len64 l j))) 28))
        + ind (e = Entry.mismatch_internal i j)
        + ind (e = Entry.mismatch_internal l k)) := by
  simp only [internal_count, upd_apply, gupd_apply]
  ring

lemma count_single_loop_apply (i j k l : ℕ) (v : ScoreType) (T : Tables) (e : Entry) :
    count_single_loop i j k l v T e = T e + v * mult_single_loop i j k l e := by
  by_cases h0 : max (len64 i k) (len64 l j) = 0
  · rw [count_single_loop_stack i j k l v T h0, stack_count_apply]
    simp only [mult_single_loop]
    rw [if_pos h0]
  · by_cases h1 : min (len64 i k) (len64 l j) = 0
    · rw [count_single_loop_bulge i j k l v T h0 h1, bulge_count_apply]
      simp only [mult_single_loop]
      rw [if_neg h0, if_pos h1]
    · rw [count_single_loop_internal i j k l v T h0 h1, internal_count_apply]
      simp only [mult_single_loop]
      rw [if_neg h0, if_neg h1]

/-! ### Score operations read exactly their read lists -/

lemma score_hairpin_reads (T : Tables) (i j : ℕ) :
    score_hairpin T i j = ((reads_hairpin i j).map T).sum := by
  simp [score_hairpin, reads_hairpin]
  ring

lemma score_single_loop_reads (T : Tables) (i j k l : ℕ) :
    score_single_loop T i j k l = ((reads_single_loop i j k l).map T).sum := by
  by_cases h0 : max (len64 i k) (len64 l j) = 0
  · rw [score_single_loop_stack T i j k l h0]
    simp only [reads_single_loop]
    rw [if_pos h0]
    simp [stack_score]
  · by_cases h1 : min (len64 i k) (len64 l j) = 0
    · rw [score_single_loop_bulge T i j k l h0 h1]
      simp only [reads_single_loop]
      rw [if_neg h0, if_pos h1]
      simp [bulge_score]
      ring
    · rw [score_single_loop_internal T i j k l h0 h1]
      simp only [reads_single_loop]
      rw [if_neg h0, if_neg h1]
      by_cases hsym : min (len64 i k) (len64 l j) = max (len64 i k) (len64 l j)
      · simp [internal_score, hsym]
        ring
      · simp [internal_score, hsym]
        ring

/-! ### Count operations touch exactly the read entries (outside the
three 1-D length tables) -/

lemma isLenTab_ne (e : Entry) (he : isLenTab e = false) :
    (∀ n, e ≠ Entry.hairpin_length n) ∧ (∀ n, e ≠ Entry.bulge_length n) ∧
      (∀ n, e ≠ Entry.internal_length n) := by
  cases e <;> simp_all [isLenTab]

lemma count_hairpin_mirror (i j : ℕ) (v : ScoreType) (T : Tables) (e : Entry)
    (he : isLenTab e = false) :
    count_hairpin i j v T e = T e + (if e ∈ reads_hairpin i j then v else 0) := by
  have hne := (isLenTab_ne e he).1
  rw [count_hairpin_apply]
  simp only [mult_hairpin, ind, reads_hairpin, List.mem_cons,
    List.not_mem_nil, or_false]
  by_cases hb : e = Entry.base_hairpin (i + 1) (j - 1) <;>
    by_cases hm : e = Entry.mismatch_hairpin i j <;>
    first
      | (simp_all [hne (len64 i j)]; ring)
      | simp_all [hne (len64 i j)]
      | ring

lemma mem_ite_nil {α : Type} (p : Prop) [Decidable p] (L : List α) (a : α) :
    (a ∈ if p then L else []) ↔ p ∧ a ∈ L := by
  split_ifs with h <;> simp [h]

lemma count_single_loop_mirror (i j k l : ℕ)
    (h1 : i < k) (h2 : k ≤ l) (h3 : l < j)
    (v : ScoreType) (T : Tables) (e : Entry) (he : isLenTab e = false) :
    count_single_loop i j k l v T e =
      T e + (if e ∈ reads_single_loop i j k l then v else 0) := by
  have dil : ¬ (i = l) := by omega
  have dli : ¬ (l = i) := by omega
  rw [count_single_loop_apply]
  simp only [mult_single_loop, reads_single_loop]
  by_cases h0 : max (len64 i k) (len64 l j) = 0
  · simp only [eq_true h0, if_true]
    simp only [ind, List.mem_cons, List.not_mem_nil, or_false,
      Entry.helix_stacking.injEq]
    cases e with
    | helix_stacking a b =>
      by_cases hp : a = i ∧ b = j <;> by_cases hq : a = l ∧ b = k <;>
        first
          | (exfalso; omega)
          | (simp [hp, hq, dil, dli]; ring)
          | simp [hp, hq, dil, dli]
    | hairpin_length n => simp_all [isLenTab]
    | bulge_length n => simp_all [isLenTab]
    | internal_length n => simp_all [isLenTab]
    | mismatch_external a b => simp
    | mismatch_hairpin a b => simp
    | mismatch_internal a b => simp
    | mismatch_multi a b => simp
    | base_hairpin a b => simp
    | base_internal a b => simp
    | base_multi a b => simp
    | base_external a b => simp
    | internal_explicit a b => simp
    | internal_symmetry n => simp
    | internal_asymmetry n => simp
  · by_cases hs : min (len64 i k) (len64 l j) = 0
    · simp only [eq_false h0, if_false, eq_true hs, if_true]
      simp only [ind, List.mem_cons, List.not_mem_nil, or_false,
        Entry.base_internal.injEq, Entry.mismatch_internal.injEq,
        Entry.bulge_length.injEq]
      cases e with
      | base_internal a b =>
        by_cases hp : a = i + 1 ∧ b = k - 1 <;> by_cases hq : a = l + 1 ∧ b = j - 1 <;>
          first
            | (exfalso; omega)
            | (simp [hp, hq, dil, dli]; ring)
            | simp [hp, hq, dil, dli]
      | mismatch_internal a b =>
        by_cases hp : a = i ∧ b = j <;> by_cases hq : a = l ∧ b = k <;>
          first
            | (exfalso; omega)
            | (simp [hp, hq, dil, dli]; ring)
            | simp [hp, hq, dil, dli]
      | hairpin_length n => simp_all [isLenTab]
      | bulge_length n => simp_all [isLenTab]
      | internal_length n => simp_all [isLenTab]
      | helix_stacking a b => simp
      | mismatch_external a b => simp
      | mismatch_hairpin a b => simp
      | mismatch_multi a b => simp
      | base_hairpin a b => simp
      | base_multi a b => simp
      | base_external a b => simp
      | internal_explicit a b => simp
      | internal_symmetry n => simp
      | internal_asymmetry n => simp
    · simp only [eq_false h0, eq_false hs, if_false]
      simp only [ind, List.mem_cons, List.mem_append, mem_ite_nil,
        List.not_mem_nil, or_false, and_false, false_or,
        Entry.base_internal.injEq, Entry.mismatch_internal.injEq,
        Entry.internal_explicit.injEq, Entry.internal_symmetry.injEq,
        Entry.internal_asymmetry.injEq, Entry.internal_length.injEq]
      cases e with
      | base_internal a b =>
        by_cases hp : a = i + 1 ∧ b = k - 1 <;> by_cases hq : a = l + 1 ∧ b = j - 1 <;>
          first
            | (exfalso; omega)
            | (simp [hp, hq, dil, dli]; ring)
            | simp [hp, hq, dil, dli]
      | mismatch_internal a b =>
        by_cases hp : a = i ∧ b = j <;> by_cases hq : a = l ∧ b = k <;>
          first
            | (exfalso; omega)
            | (simp [hp, hq, dil, dli]; ring)
            | simp [hp, hq, dil, dli]
      | internal_explicit a b =>
        by_cases hp : a = min (u32 (min (len64 i k) (len64 l j))) 4 ∧
            b = min (u32 (max (len64 i k) (len64 l j))) 4 <;>
          first
            | (simp [hp]; ring)
            | simp [hp]
      | internal_asymmetry n =>
        by_cases hp : n = min (u32 (max (len64 i k) (len64 l j)
            - min (len64 i k) (len64 l j))) 28 <;>
          first
            | (simp [hp]; ring)
            | simp [hp]
      | internal_symmetry n =>
        by_cases hsym : min (len64 i k) (len64 l j) = max (len64 i k) (len64 l j) <;>
          by_cases hn : n = min (u32 (max (len64 i k) (len64 l j))) 15 <;>
          first
            | (simp [hsym, hn]; ring)
            | simp [hsym, hn]
      | hairpin_length n => simp_all [isLenTab]
      | bulge_length n => simp_all [isLenTab]
      | internal_length n => simp_all [isLenTab]
      | helix_stacking a b => simp
      | mismatch_external a b => simp
      | mismatch_hairpin a b => simp
      | mismatch_multi a b => simp
      | base_hairpin a b => simp
      | base_multi a b => simp
      | base_external a b => simp

/-- The all-zero table bundle, used as a concrete instance. -/
def Tzero : Tables := fun _ => 0

/-- Indicator table bundle: 1 at the given entry, 0 elsewhere. -/
def indTab (e0 : Entry) : Tables := fun e => if e = e0 then 1 else 0

lemma upd_mirror (T : Tables) (x : Entry) (v : ScoreType) (e : Entry) :
    upd T x v e = T e + (if e ∈ [x] then v else 0) := by
  simp only [upd_apply, ind, List.mem_cons, List.not_mem_nil, or_false]
  split_ifs <;> ring

/-! ### Claim theorems -/

/-- Claim C6: for every loop kind and fixed arguments, two successive
count calls with weights v1 and v2 leave every table entry as one call
with weight v1 + v2 would (additive, order-insensitive accumulation),
and a count call with weight 0 changes no table entry.  The two-index
operations use (i, j); count_single_loop uses (i, j, k, l). -/
theorem count_additive (i j k l : ℕ) (v1 v2 : ScoreType) (T : Tables) :
    (count_hairpin i j v2 (count_hairpin i j v1 T) = count_hairpin i j (v1 + v2) T
      ∧ count_hairpin i j 0 T = T)
    ∧ (count_single_loop i j k l v2 (count_single_loop i j k l v1 T)
          = count_single_loop i j k l (v1 + v2) T
      ∧ count_single_loop i j k l 0 T = T)
    ∧ (count_multi_loop i j v2 (count_multi_loop i j v1 T) = count_multi_loop i j (v1 + v2) T
      ∧ count_multi_loop i j 0 T = T)
    ∧ (count_multi_paired i j v2 (count_multi_paired i j v1 T) = count_multi_paired i j (v1 + v2) T
      ∧ count_multi_paired i j 0 T = T)
    ∧ (count_multi_unpaired i j v2 (count_multi_unpaired i j v1 T)
          = count_multi_unpaired i j (v1 + v2) T
      ∧ count_multi_unpaired i j 0 T = T)
    ∧ (count_external_paired i j v2 (count_external_paired i j v1 T)
          = count_external_paired i j (v1 + v2) T
      ∧ count_external_paired i j 0 T = T)
    ∧ (count_external_unpaired i j v2 (count_external_unpaired i j v1 T)
          = count_external_unpaired i j (v1 + v2) T
      ∧ count_external_unpaired i j 0 T = T) := by
  refine ⟨⟨?_, ?_⟩, ⟨?_, ?_⟩, ⟨?_, ?_⟩, ⟨?_, ?_⟩, ⟨?_, ?_⟩, ⟨?_, ?_⟩, ⟨?_, ?_⟩⟩ <;>
    funext e <;>
    simp only [count_hairpin_apply, count_single_loop_apply, count_multi_loop,
      count_multi_paired, count_multi_unpaired, count_external_paired,
      count_external_unpaired, upd_apply] <;>
    ring

/-- Claim C7: the paired-base operations access the 2-D mismatch tables
transposed: score_multi_paired(i, j) reads mismatch_multi(j, i) and hence
equals score_multi_loop(j, i); score_external_paired(i, j) reads
mismatch_external(j, i); and the matching count operations increment
exactly those transposed entries by v and nothing else. -/
theorem paired_transposed_access (i j : ℕ) (v : ScoreType) (T : Tables) :
    score_multi_paired T i j = T (Entry.mismatch_multi j i)
    ∧ score_multi_paired T i j = score_multi_loop T j i
    ∧ score_external_paired T i j = T (Entry.mismatch_external j i)
    ∧ (∀ e, count_multi_paired i j v T e =
        T e + (if e = Entry.mismatch_multi j i then v else 0))
    ∧ (∀ e, count_external_paired i j v T e =
        T e + (if e = Entry.mismatch_external j i then v else 0)) := by
  refine ⟨rfl, rfl, rfl, fun e => ?_, fun e => ?_⟩ <;>
    (simp only [count_multi_paired, count_external_paired, upd_apply, ind]
     split_ifs <;> ring)

/-- Claim C9: a hairpin of unpaired length 45 (j = i + 46) routes through
hairpin_length[30] exactly as one of length 30 (j = i + 31) does; the
count call at length 45 leaves every bucket of the hairpin_length count
table untouched (including bucket 30), while at length 30 it adds
exactly v to hairpin_length[30]. -/
theorem hairpin_clamp_skip_45_30 (i : ℕ) (v : ScoreType) (T : Tables) :
    score_hairpin T i (i + 46) = T (Entry.hairpin_length 30)
        + T (Entry.base_hairpin (i + 1) (i + 45)) + T (Entry.mismatch_hairpin i (i + 46))
    ∧ score_hairpin T i (i + 31) = T (Entry.hairpin_length 30)
        + T (Entry.base_hairpin (i + 1) (i + 30)) + T (Entry.mismatch_hairpin i (i + 31))
    ∧ (∀ n, count_hairpin i (i + 46) v T (Entry.hairpin_length n)
        = T (Entry.hairpin_length n))
    ∧ count_hairpin i (i + 31) v T (Entry.hairpin_length 30)
        = T (Entry.hairpin_length 30) + v := by
  have h45 : len64 i (i + 46) = 45 := by
    have h := len64_shift i 45 (by norm_num)
    have e46 : i + 1 + 45 = i + 46 := by omega
    rw [e46] at h
    exact h
  have h30 : len64 i (i + 31) = 30 := by
    have h := len64_shift i 30 (by norm_num)
    have e31 : i + 1 + 30 = i + 31 := by omega
    rw [e31] at h
    exact h
  refine ⟨?_, ?_, fun n => ?_, ?_⟩
  · simp only [score_hairpin, h45]
    have hm : min (u32 45) 30 = 30 := by norm_num [u32]
    have hj : i + 46 - 1 = i + 45 := by omega
    rw [hm, hj]
  · simp only [score_hairpin, h30]
    have hm : min (u32 30) 30 = 30 := by norm_num [u32]
    have hj : i + 31 - 1 = i + 30 := by omega
    rw [hm, hj]
  · rw [count_hairpin_apply]
    simp [mult_hairpin, h45, ind]
  · rw [count_hairpin_apply]
    simp [mult_hairpin, h30, ind]


/-- Claim C4: score_single_loop and count_single_loop classify every
argument tuple identically, with ll == 0 (stack) checked before ls == 0
(bulge), so ls == ll == 0 always classifies as stack and never bulge;
the classifier of spec section 4.3 describes both operations exactly. -/
theorem single_loop_classification (i j k l : ℕ) (T : Tables) (v : ScoreType) :
    (score_single_loop T i j k l =
      match classify (len64 i k) (len64 l j) with
      | LoopKind.stack => stack_score T i j k l
      | LoopKind.bulge => bulge_score T i j k l
      | LoopKind.internal => internal_score T i j k l)
    ∧ (count_single_loop i j k l v T =
      match classify (len64 i k) (len64 l j) with
      | LoopKind.stack => stack_count i j k l v T
      | LoopKind.bulge => bulge_count i j k l v T
      | LoopKind.internal => internal_count i j k l v T)
    ∧ (classify (len64 i k) (len64 l j) = LoopKind.stack
        ↔ max (len64 i k) (len64 l j) = 0)
    ∧ (classify (len64 i k) (len64 l j) = LoopKind.bulge
        ↔ ¬ max (len64 i k) (len64 l j) = 0 ∧ min (len64 i k) (len64 l j) = 0)
    ∧ classify 0 0 = LoopKind.stack := by
  have hstack : classify 0 0 = LoopKind.stack := by simp [classify]
  by_cases h0 : max (len64 i k) (len64 l j) = 0
  · have hc : classify (len64 i k) (len64 l j) = LoopKind.stack := by
      simp [classify, h0]
    rw [hc]
    exact ⟨score_single_loop_stack T i j k l h0,
      count_single_loop_stack i j k l v T h0,
      by simp [h0], by simp [h0], hstack⟩
  · by_cases h1 : min (len64 i k) (len64 l j) = 0
    · have hc : classify (len64 i k) (len64 l j) = LoopKind.bulge := by
        simp [classify, h0, h1]
      rw [hc]
      exact ⟨score_single_loop_bulge T i j k l h0 h1,
        count_single_loop_bulge i j k l v T h0 h1,
        by simp [h0], by simp [h0, h1], hstack⟩
    · have hc : classify (len64 i k) (len64 l j) = LoopKind.internal := by
        simp [classify, h0, h1]
      rw [hc]
      exact ⟨score_single_loop_internal T i j k l h0 h1,
        count_single_loop_internal i j k l v T h0 h1,
        by simp [h0], by simp [h0, h1], hstack⟩

/-- Witness for claim C4 at the concrete internal-loop tuple
(i, j, k, l) = (0, 10, 3, 6) with the all-zero tables. -/
theorem single_loop_classification_witness :
    classify (len64 0 3) (len64 6 10) = LoopKind.stack
      ↔ max (len64 0 3) (len64 6 10) = 0 :=
  (single_loop_classification 0 10 3 6 Tzero 1).2.2.1

/-- Claim C8: in the stack configuration (ll == 0), score_single_loop
reads only helix_stacking(i, j) and helix_stacking(l, k), and
count_single_loop adds v to exactly those two entries and changes
nothing else — in particular no base_internal, mismatch_internal, or
length-table entry is touched. -/
theorem stack_isolation (i j k l : ℕ) (T : Tables) (v : ScoreType)
    (hll : max (len64 i k) (len64 l j) = 0) :
    score_single_loop T i j k l
        = T (Entry.helix_stacking i j) + T (Entry.helix_stacking l k)
    ∧ ∀ e, count_single_loop i j k l v T e =
        T e + (if e = Entry.helix_stacking i j then v else 0)
            + (if e = Entry.helix_stacking l k then v else 0) := by
  constructor
  · rw [score_single_loop_stack T i j k l hll]
    rfl
  · intro e
    rw [count_single_loop_stack i j k l v T hll, stack_count_apply]
    simp only [ind]
    split_ifs <;> ring

/-- Witness for claim C8 at the concrete stack tuple
(i, j, k, l) = (2, 10, 3, 9) with the all-zero tables. -/
theorem stack_isolation_witness :
    max (len64 2 3) (len64 9 10) = 0
    ∧ score_single_loop Tzero 2 10 3 9
        = Tzero (Entry.helix_stacking 2 10) + Tzero (Entry.helix_stacking 9 3) := by
  have h1 : len64 2 3 = 0 := by
    have h := len64_eq_of_lt 2 3 (by norm_num) (by norm_num)
    omega
  have h2 : len64 9 10 = 0 := by
    have h := len64_eq_of_lt 9 10 (by norm_num) (by norm_num)
    omega
  have hll : max (len64 2 3) (len64 9 10) = 0 := by
    rw [h1, h2]
    simp
  exact ⟨hll, (stack_isolation 2 10 3 9 Tzero 1 hll).1⟩

/-- Claim C1: for every loop kind and every well-formed argument tuple
(i < k ≤ l < j for the single-loop operation; the two-index operations
use (i, j)), the entries incremented by count_X(args, v) are exactly
the entries read by score_X(args), each incremented by exactly v, and
no other entry changes — outside the three 1-D length tables
hairpin_length, bulge_length, internal_length, which carry the
documented clamp/skip asymmetry (claim C2).  The score side states
that score_X returns exactly the sum over its read list. -/
theorem count_mirrors_score (i j k l : ℕ)
    (h1 : i < k) (h2 : k ≤ l) (h3 : l < j)
    (T : Tables) (v : ScoreType) (e : Entry) (he : isLenTab e = false) :
    (score_hairpin T i j = ((reads_hairpin i j).map T).sum
      ∧ count_hairpin i j v T e = T e + (if e ∈ reads_hairpin i j then v else 0))
    ∧ (score_single_loop T i j k l = ((reads_single_loop i j k l).map T).sum
      ∧ count_single_loop i j k l v T e =
          T e + (if e ∈ reads_single_loop i j k l then v else 0))
    ∧ (score_multi_loop T i j = ((reads_multi_loop i j).map T).sum
      ∧ count_multi_loop i j v T e = T e + (if e ∈ reads_multi_loop i j then v else 0))
    ∧ (score_multi_paired T i j = ((reads_multi_paired i j).map T).sum
      ∧ count_multi_paired i j v T e =
          T e + (if e ∈ reads_multi_paired i j then v else 0))
    ∧ (score_multi_unpaired T i j = ((reads_multi_unpaired i j).map T).sum
      ∧ count_multi_unpaired i j v T e =
          T e + (if e ∈ reads_multi_unpaired i j then v else 0))
    ∧ (score_external_paired T i j = ((reads_external_paired i j).map T).sum
      ∧ count_external_paired i j v T e =
          T e + (if e ∈ reads_external_paired i j then v else 0))
    ∧ (score_external_unpaired T i j = ((reads_external_unpaired i j).map T).sum
      ∧ count_external_unpaired i j v T e =
          T e + (if e ∈ reads_external_unpaired i j then v else 0)) := by
  refine ⟨⟨score_hairpin_reads T i j, count_hairpin_mirror i j v T e he⟩,
    ⟨score_single_loop_reads T i j k l,
      count_single_loop_mirror i j k l h1 h2 h3 v T e he⟩,
    ⟨by simp [score_multi_loop, reads_multi_loop], ?_⟩,
    ⟨by simp [score_multi_paired, reads_multi_paired], ?_⟩,
    ⟨by simp [score_multi_unpaired, reads_multi_unpaired], ?_⟩,
    ⟨by simp [score_external_paired, reads_external_paired], ?_⟩,
    ⟨by simp [score_external_unpaired, reads_external_unpaired], ?_⟩⟩ <;>
    simp only [count_multi_loop, count_multi_paired, count_multi_unpaired,
      count_external_paired, count_external_unpaired, reads_multi_loop,
      reads_multi_paired, reads_multi_unpaired, reads_external_paired,
      reads_external_unpaired] <;>
    exact upd_mirror T _ v e

/-- Witness for claim C1 at the concrete internal-loop tuple
(i, j, k, l) = (0, 10, 3, 6), weight 2, all-zero tables, at the
non-length entry base_internal(1, 2). -/
theorem count_mirrors_score_witness :
    (0 : ℕ) < 3 ∧ isLenTab (Entry.base_internal 1 2) = false
    ∧ count_single_loop 0 10 3 6 2 Tzero (Entry.base_internal 1 2) =
        Tzero (Entry.base_internal 1 2)
          + (if Entry.base_internal 1 2 ∈ reads_single_loop 0 10 3 6
              then (2 : ScoreType) else 0) :=
  ⟨by decide, by decide,
    (count_mirrors_score 0 10 3 6 (by decide) (by decide) (by decide)
      Tzero 2 (Entry.base_internal 1 2) (by decide)).2.1.2⟩

/-- Claim C3 counterexample table: 1 at hairpin_length[30], 0 elsewhere. -/
def Tc3 : Tables := indTab (Entry.hairpin_length 30)

/-- Claim C3 as stated is false at i = 0, j = 2^32 + 1: the loop length
l = j - i - 1 = 2^32 is truncated to u_int32_t before the clamp, so the
code reads hairpin_length[0], not hairpin_length[min(l, 30)] =
hairpin_length[30]: on the table Tc3 the claimed formula gives 1 while
score_hairpin returns 0. -/
theorem score_hairpin_formula_cx :
    30 < 2 ^ 32 + 1 - 0 - 1
    ∧ score_hairpin Tc3 0 (2 ^ 32 + 1) = 0
    ∧ Tc3 (Entry.hairpin_length (min (2 ^ 32 + 1 - 0 - 1) 30))
        + Tc3 (Entry.base_hairpin (0 + 1) (2 ^ 32 + 1 - 1))
        + Tc3 (Entry.mismatch_hairpin 0 (2 ^ 32 + 1)) = 1 := by
  have hlen : len64 0 (2 ^ 32 + 1) = 2 ^ 32 := by
    have h := len64_eq_of_lt 0 (2 ^ 32 + 1) (by norm_num) (by norm_num)
    omega
  refine ⟨by norm_num, ?_, ?_⟩
  · simp only [score_hairpin, hlen]
    have hu : u32 (2 ^ 32) = 0 := by norm_num [u32]
    rw [hu]
    simp [Tc3, indTab]
  · have hmin : min (2 ^ 32 + 1 - 0 - 1) 30 = 30 := by norm_num
    rw [hmin]
    simp [Tc3, indTab]

/-- Claim C3 (amended): for every i < j whose unpaired loop length
l = j - i - 1 is below 2^32 (so that the u_int32_t conversion inside
std::min<u_int32_t>(l, 30) is the identity), score_hairpin(i, j)
returns exactly hairpin_length[min(l, 30)] + base_hairpin(i+1, j-1) +
mismatch_hairpin(i, j); the call is pure by construction (it only reads
the table bundle). -/
theorem score_hairpin_formula_amended (T : Tables) (i j : ℕ) (hij : i < j)
    (hl : j - i - 1 < 2 ^ 32) :
    score_hairpin T i j = T (Entry.hairpin_length (min (j - i - 1) 30))
      + T (Entry.base_hairpin (i + 1) (j - 1)) + T (Entry.mismatch_hairpin i j) := by
  have hlen : len64 i j = j - i - 1 := by
    refine len64_eq_of_lt i j hij ?_
    have : (2 : ℕ) ^ 32 < 2 ^ 64 := by norm_num
    omega
  simp only [score_hairpin, hlen, u32, Nat.mod_eq_of_lt hl]

/-- Witness for amended claim C3 at i = 0, j = 8 (loop length 7). -/
theorem score_hairpin_formula_amended_witness :
    (0 : ℕ) < 8 ∧ 8 - 0 - 1 < 2 ^ 32
    ∧ score_hairpin Tzero 0 8 = Tzero (Entry.hairpin_length (min (8 - 0 - 1) 30))
        + Tzero (Entry.base_hairpin (0 + 1) (8 - 1)) + Tzero (Entry.mismatch_hairpin 0 8) :=
  ⟨by norm_num, by norm_num,
    score_hairpin_formula_amended Tzero 0 8 (by norm_num) (by norm_num)⟩

/-- Claim C5 counterexample table: 1 at internal_length[30], 0 elsewhere. -/
def Tc5 : Tables := indTab (Entry.internal_length 30)

/-- Claim C5 as stated is false at (i, j, k, l) = (0, 2^32 + 7, 2, 2):
there ls = 1 and ll = 2^32 + 4, so the claimed internal_length index
min(ls + ll, 30) is the ceiling bucket 30, but the code truncates
ls + ll to u_int32_t first and reads internal_length[5]; on the table
Tc5 the claimed formula sums to 1 while score_single_loop returns 0. -/
theorem internal_loop_formula_cx :
    0 < min (len64 0 2) (len64 2 (2 ^ 32 + 7))
    ∧ score_single_loop Tc5 0 (2 ^ 32 + 7) 2 2 = 0
    ∧ Tc5 (Entry.internal_length
          (min (min (len64 0 2) (len64 2 (2 ^ 32 + 7))
            + max (len64 0 2) (len64 2 (2 ^ 32 + 7))) 30))
        + Tc5 (Entry.base_internal (0 + 1) (2 - 1))
        + Tc5 (Entry.base_internal (2 + 1) (2 ^ 32 + 7 - 1))
        + Tc5 (Entry.internal_explicit
            (min (min (len64 0 2) (len64 2 (2 ^ 32 + 7))) 4)
            (min (max (len64 0 2) (len64 2 (2 ^ 32 + 7))) 4))
        + (if min (len64 0 2) (len64 2 (2 ^ 32 + 7))
              = max (len64 0 2) (len64 2 (2 ^ 32 + 7))
            then Tc5 (Entry.internal_symmetry
              (min (max (len64 0 2) (len64 2 (2 ^ 32 + 7))) 15)) else 0)
        + Tc5 (Entry.internal_asymmetry
            (min (max (len64 0 2) (len64 2 (2 ^ 32 + 7))
              - min (len64 0 2) (len64 2 (2 ^ 32 + 7))) 28))
        + Tc5 (Entry.mismatch_internal 0 (2 ^ 32 + 7))
        + Tc5 (Entry.mismatch_internal 2 2) = 1 := by
  have hl1 : len64 0 2 = 1 := by
    have h := len64_eq_of_lt 0 2 (by norm_num) (by norm_num)
    omega
  have hl2 : len64 2 (2 ^ 32 + 7) = 4294967300 := by
    have h := len64_eq_of_lt 2 (2 ^ 32 + 7) (by norm_num) (by norm_num)
    norm_num at h
    exact h
  have hmin : min (len64 0 2) (len64 2 (2 ^ 32 + 7))= 1 := by
    rw [hl1, hl2]
    omega
  have hmax : max (len64 0 2) (len64 2 (2 ^ 32 + 7)) = 4294967300 := by
    rw [hl1, hl2]
    omega
  have h0 : ¬ max (len64 0 2) (len64 2 (2 ^ 32 + 7)) = 0 := by
    rw [hmax]
    norm_num
  have h1 : ¬ min (len64 0 2) (len64 2 (2 ^ 32 + 7)) = 0 := by
    rw [hmin]
    norm_num
  refine ⟨by rw [hmin]; norm_num, ?_, ?_⟩
  · rw [score_single_loop_internal Tc5 0 (2 ^ 32 + 7) 2 2 h0 h1]
    simp only [internal_score, hmin, hmax]
    norm_num [u32, Tc5, indTab]
    simp
  · rw [hmin, hmax]
    norm_num [Tc5, indTab]
    simp

/-- Claim C5 (amended): for every internal-loop tuple (ls > 0, hence
ll > 0) whose total unpaired length ls + ll is below 2^32 (so that the
u_int32_t conversions inside the std::min clamps are the identity),
score_single_loop returns exactly the claimed sum internal_length[
min(ls+ll, 30)] + base_internal(i+1, k-1) + base_internal(l+1, j-1) +
internal_explicit[min(ls, 4)][min(ll, 4)] + (internal_symmetry[
min(ll, 15)] iff ls = ll) + internal_asymmetry[min(ll-ls, 28)] +
mismatch_internal(i, j) + mismatch_internal(l, k); and
count_single_loop adds v to internal_symmetry[min(ll, 15)] exactly once
when ls = ll and touches no internal_symmetry bucket when ls ≠ ll. -/
theorem internal_loop_formula_amended (i j k l : ℕ) (T : Tables) (v : ScoreType)
    (hls : 0 < min (len64 i k) (len64 l j))
    (hw : min (len64 i k) (len64 l j) + max (len64 i k) (len64 l j) < 2 ^ 32) :
    (score_single_loop T i j k l =
      T (Entry.internal_length
          (min (min (len64 i k) (len64 l j) + max (len64 i k) (len64 l j)) 30))
        + T (Entry.base_internal (i + 1) (k - 1))
        + T (Entry.base_internal (l + 1) (j - 1))
        + T (Entry.internal_explicit (min (min (len64 i k) (len64 l j)) 4)
            (min (max (len64 i k) (len64 l j)) 4))
        + (if min (len64 i k) (len64 l j) = max (len64 i k) (len64 l j)
            then T (Entry.internal_symmetry (min (max (len64 i k) (len64 l j)) 15))
            else 0)
        + T (Entry.internal_asymmetry
            (min (max (len64 i k) (len64 l j) - min (len64 i k) (len64 l j)) 28))
        + T (Entry.mismatch_internal i j) + T (Entry.mismatch_internal l k))
    ∧ (min (len64 i k) (len64 l j) = max (len64 i k) (len64 l j) →
        count_single_loop i j k l v T
            (Entry.internal_symmetry (min (max (len64 i k) (len64 l j)) 15))
          = T (Entry.internal_symmetry (min (max (len64 i k) (len64 l j)) 15)) + v)
    ∧ (¬ min (len64 i k) (len64 l j) = max (len64 i k) (len64 l j) →
        ∀ n, count_single_loop i j k l v T (Entry.internal_symmetry n)
          = T (Entry.internal_symmetry n)) := by
  have hmm : min (len64 i k) (len64 l j) ≤ max (len64 i k) (len64 l j) :=
    min_le_max
  have h0 : ¬ max (len64 i k) (len64 l j) = 0 := by omega
  have h1 : ¬ min (len64 i k) (len64 l j) = 0 := by omega
  have h32 : (2 : ℕ) ^ 32 = 4294967296 := by norm_num
  have h64 : (2 : ℕ) ^ 64 = 18446744073709551616 := by norm_num
  rw [h32] at hw
  have hab : (min (len64 i k) (len64 l j) + max (len64 i k) (len64 l j)) % 2 ^ 64
      = min (len64 i k) (len64 l j) + max (len64 i k) (len64 l j) := by
    rw [h64]
    omega
  have hu_ab : u32 (min (len64 i k) (len64 l j) + max (len64 i k) (len64 l j))
      = min (len64 i k) (len64 l j) + max (len64 i k) (len64 l j) := by
    simp only [u32, h32]
    omega
  have hu_min : u32 (min (len64 i k) (len64 l j)) = min (len64 i k) (len64 l j) := by
    simp only [u32, h32]
    omega
  have hu_max : u32 (max (len64 i k) (len64 l j)) = max (len64 i k) (len64 l j) := by
    simp only [u32, h32]
    omega
  have hu_sub : u32 (max (len64 i k) (len64 l j) - min (len64 i k) (len64 l j))
      = max (len64 i k) (len64 l j) - min (len64 i k) (len64 l j) := by
    simp only [u32, h32]
    omega
  refine ⟨?_, ?_, ?_⟩
  · rw [score_single_loop_internal T i j k l h0 h1]
    simp only [internal_score, hab, hu_ab, hu_min, hu_max, hu_sub]
  · intro hsym
    rw [count_single_loop_apply]
    simp only [mult_single_loop, eq_false h0, eq_false h1, if_false, ind, hu_max]
    simp [hsym]
  · intro hsym n
    rw [count_single_loop_apply]
    simp only [mult_single_loop, eq_false h0, eq_false h1, if_false, ind]
    simp [hsym]

/-- Witness for amended claim C5 at the concrete internal-loop tuple
(i, j, k, l) = (0, 10, 3, 6) with ls = 2, ll = 3. -/
theorem internal_loop_formula_amended_witness :
    0 < min (len64 0 3) (len64 6 10)
    ∧ min (len64 0 3) (len64 6 10) + max (len64 0 3) (len64 6 10) < 2 ^ 32
    ∧ (¬ min (len64 0 3) (len64 6 10) = max (len64 0 3) (len64 6 10) →
        ∀ n, count_single_loop 0 10 3 6 1 Tzero (Entry.internal_symmetry n)
          = Tzero (Entry.internal_symmetry n)) := by
  have ha : len64 0 3 = 2 := by
    have h := len64_eq_of_lt 0 3 (by norm_num) (by norm_num)
    omega
  have hb : len64 6 10 = 3 := by
    have h := len64_eq_of_lt 6 10 (by norm_num) (by norm_num)
    omega
  have hls : 0 < min (len64 0 3) (len64 6 10) := by
    rw [ha, hb]
    omega
  have hw : min (len64 0 3) (len64 6 10) + max (len64 0 3) (len64 6 10) < 2 ^ 32 := by
    rw [ha, hb]
    have : (2 : ℕ) ^ 32 = 4294967296 := by norm_num
    omega
  exact ⟨hls, hw, (internal_loop_formula_amended 0 10 3 6 Tzero 1 hls hw).2.2⟩

/-- Claim C2 counterexample table: 1 at bulge_length[30], 0 elsewhere. -/
def Tb30 : Tables := indTab (Entry.bulge_length 30)

/-- Claim C2 as stated is false at the bulge tuple (0, 65538, 1, 1):
the raw bulge length ll = 65536 exceeds 30, so the claim says scoring
reads the ceiling bucket bulge_length[30]; but std::min<u_int16_t>
truncates ll to 0 first and the code reads bulge_length[0], so on the
table Tb30 the claimed sum is 1 while score_single_loop returns 0. -/
theorem length_clamp_skip_cx :
    min (len64 0 1) (len64 1 65538) = 0
    ∧ 30 < max (len64 0 1) (len64 1 65538)
    ∧ score_single_loop Tb30 0 65538 1 1 = 0
    ∧ Tb30 (Entry.bulge_length 30)
        + Tb30 (Entry.base_internal (0 + 1) (1 - 1))
        + Tb30 (Entry.base_internal (1 + 1) (65538 - 1))
        + Tb30 (Entry.mismatch_internal 0 65538)
        + Tb30 (Entry.mismatch_internal 1 1) = 1 := by
  have ha : len64 0 1 = 0 := by
    have h := len64_eq_of_lt 0 1 (by norm_num) (by norm_num)
    omega
  have hb : len64 1 65538 = 65536 := by
    have h := len64_eq_of_lt 1 65538 (by norm_num) (by norm_num)
    omega
  have hmin : min (len64 0 1) (len64 1 65538) = 0 := by
    rw [ha, hb]
    omega
  have hmax : max (len64 0 1) (len64 1 65538) = 65536 := by
    rw [ha, hb]
    omega
  have h0 : ¬ max (len64 0 1) (len64 1 65538) = 0 := by
    rw [hmax]
    norm_num
  refine ⟨hmin, by rw [hmax]; norm_num, ?_, ?_⟩
  · rw [score_single_loop_bulge Tb30 0 65538 1 1 h0 hmin]
    simp only [bulge_score, hmax]
    norm_num [u16, Tb30, indTab]
    simp
  · norm_num [Tb30, indTab]
    simp

/-- Claim C2 (amended): for the three 1-D length tables, when the raw
length exceeds 30 AND is below the clamp truncation width (2^32 for
hairpin_length and internal_length, 2^16 for bulge_length), scoring
reads the ceiling bucket 30 while the matching count operation performs
no update at all on that length table; when the raw length is at most
30, both use the raw length as the index.  The internal_explicit,
internal_symmetry and internal_asymmetry tables always accumulate via
exactly the clamped index that scoring reads, at full width. -/
theorem length_clamp_skip_amended (i j k l : ℕ) (v : ScoreType) (T : Tables) :
    (30 < len64 i j → len64 i j < 2 ^ 32 →
      score_hairpin T i j = T (Entry.hairpin_length 30)
          + T (Entry.base_hairpin (i + 1) (j - 1)) + T (Entry.mismatch_hairpin i j)
        ∧ ∀ n, count_hairpin i j v T (Entry.hairpin_length n)
            = T (Entry.hairpin_length n))
    ∧ (len64 i j ≤ 30 →
      score_hairpin T i j = T (Entry.hairpin_length (len64 i j))
          + T (Entry.base_hairpin (i + 1) (j - 1)) + T (Entry.mismatch_hairpin i j)
        ∧ count_hairpin i j v T (Entry.hairpin_length (len64 i j))
            = T (Entry.hairpin_length (len64 i j)) + v)
    ∧ (min (len64 i k) (len64 l j) = 0 → 30 < max (len64 i k) (len64 l j) →
        max (len64 i k) (len64 l j) < 2 ^ 16 →
      score_single_loop T i j k l = T (Entry.bulge_length 30)
          + T (Entry.base_internal (i + 1) (k - 1)) + T (Entry.base_internal (l + 1) (j - 1))
          + T (Entry.mismatch_internal i j) + T (Entry.mismatch_internal l k)
        ∧ ∀ n, count_single_loop i j k l v T (Entry.bulge_length n)
            = T (Entry.bulge_length n))
    ∧ (min (len64 i k) (len64 l j) = 0 → 0 < max (len64 i k) (len64 l j) →
        max (len64 i k) (len64 l j) ≤ 30 →
      score_single_loop T i j k l
          = T (Entry.bulge_length (max (len64 i k) (len64 l j)))
          + T (Entry.base_internal (i + 1) (k - 1)) + T (Entry.base_internal (l + 1) (j - 1))
          + T (Entry.mismatch_internal i j) + T (Entry.mismatch_internal l k)
        ∧ count_single_loop i j k l v T (Entry.bulge_length (max (len64 i k) (len64 l j)))
            = T (Entry.bulge_length (max (len64 i k) (len64 l j))) + v)
    ∧ (0 < min (len64 i k) (len64 l j) →
        30 < min (len64 i k) (len64 l j) + max (len64 i k) (len64 l j) →
        min (len64 i k) (len64 l j) + max (len64 i k) (len64 l j) < 2 ^ 32 →
      score_single_loop T i j k l = internal_score T i j k l
        ∧ min (u32 ((min (len64 i k) (len64 l j) + max (len64 i k) (len64 l j)) % 2 ^ 64)) 30 = 30
        ∧ ∀ n, count_single_loop i j k l v T (Entry.internal_length n)
            = T (Entry.internal_length n))
    ∧ (0 < min (len64 i k) (len64 l j) →
        min (len64 i k) (len64 l j) + max (len64 i k) (len64 l j) ≤ 30 →
      score_single_loop T i j k l = internal_score T i j k l
        ∧ min (u32 ((min (len64 i k) (len64 l j) + max (len64 i k) (len64 l j)) % 2 ^ 64)) 30
            = min (len64 i k) (len64 l j) + max (len64 i k) (len64 l j)
        ∧ count_single_loop i j k l v T
            (Entry.internal_length (min (len64 i k) (len64 l j) + max (len64 i k) (len64 l j)))
          = T (Entry.internal_length (min (len64 i k) (len64 l j) + max (len64 i k) (len64 l j))) + v)
    ∧ (0 < min (len64 i k) (len64 l j) →
      count_single_loop i j k l v T
          (Entry.internal_explicit (min (u32 (min (len64 i k) (len64 l j))) 4)
            (min (u32 (max (len64 i k) (len64 l j))) 4))
        = T (Entry.internal_explicit (min (u32 (min (len64 i k) (len64 l j))) 4)
            (min (u32 (max (len64 i k) (len64 l j))) 4)) + v
      ∧ count_single_loop i j k l v T
          (Entry.internal_asymmetry
            (min (u32 (max (len64 i k) (len64 l j) - min (len64 i k) (len64 l j))) 28))
        = T (Entry.internal_asymmetry
            (min (u32 (max (len64 i k) (len64 l j) - min (len64 i k) (len64 l j))) 28)) + v
      ∧ (min (len64 i k) (len64 l j) = max (len64 i k) (len64 l j) →
          count_single_loop i j k l v T
              (Entry.internal_symmetry (min (u32 (max (len64 i k) (len64 l j))) 15))
            = T (Entry.internal_symmetry (min (u32 (max (len64 i k) (len64 l j))) 15)) + v)) := by
  have h32 : (2 : ℕ) ^ 32 = 4294967296 := by norm_num
  have h16 : (2 : ℕ) ^ 16 = 65536 := by norm_num
  have h64 : (2 : ℕ) ^ 64 = 18446744073709551616 := by norm_num
  refine ⟨?_, ?_, ?_, ?_, ?_, ?_, ?_⟩
  · intro h30 h32b
    constructor
    · simp only [score_hairpin]
      have hu : u32 (len64 i j) = len64 i j := by
        simp only [u32]
        exact Nat.mod_eq_of_lt h32b
      have hm : min (u32 (len64 i j)) 30 = 30 := by
        rw [hu]
        omega
      rw [hm]
    · intro n
      rw [count_hairpin_apply]
      have hn : ¬ (len64 i j ≤ 30) := by omega
      simp [mult_hairpin, ind, hn]
  · intro h30
    constructor
    · simp only [score_hairpin]
      have hu : u32 (len64 i j) = len64 i j := by
        simp only [u32, h32]
        omega
      have hm : min (u32 (len64 i j)) 30 = len64 i j := by
        rw [hu]
        omega
      rw [hm]
    · rw [count_hairpin_apply]
      simp [mult_hairpin, ind, h30]
  · intro hs h30 h16b
    have h0 : ¬ max (len64 i k) (len64 l j) = 0 := by omega
    constructor
    · rw [score_single_loop_bulge T i j k l h0 hs]
      simp only [bulge_score]
      have hm : min (u16 (max (len64 i k) (len64 l j))) 30 = 30 := by
        simp only [u16]
        have hu := Nat.mod_eq_of_lt h16b
        omega
      rw [hm]
    · intro n
      rw [count_single_loop_apply]
      simp only [mult_single_loop, eq_false h0, if_false, eq_true hs, if_true, ind]
      have hn : ¬ (max (len64 i k) (len64 l j) ≤ 30) := by omega
      simp [hn]
  · intro hs hpos h30
    have h0 : ¬ max (len64 i k) (len64 l j) = 0 := by omega
    constructor
    · rw [score_single_loop_bulge T i j k l h0 hs]
      simp only [bulge_score]
      have hm : min (u16 (max (len64 i k) (len64 l j))) 30
          = max (len64 i k) (len64 l j) := by
        simp only [u16, h16]
        omega
      rw [hm]
    · rw [count_single_loop_apply]
      simp only [mult_single_loop, eq_false h0, if_false, eq_true hs, if_true, ind]
      simp [h30]
  · intro hpos h30 h32b
    have hmm : min (len64 i k) (len64 l j) ≤ max (len64 i k) (len64 l j) := min_le_max
    have h0 : ¬ max (len64 i k) (len64 l j) = 0 := by omega
    have h1 : ¬ min (len64 i k) (len64 l j) = 0 := by omega
    have hab : (min (len64 i k) (len64 l j) + max (len64 i k) (len64 l j)) % 2 ^ 64
        = min (len64 i k) (len64 l j) + max (len64 i k) (len64 l j) := by
      rw [h64]
      rw [h32] at h32b
      omega
    refine ⟨score_single_loop_internal T i j k l h0 h1, ?_, ?_⟩
    · rw [hab]
      simp only [u32]
      rw [Nat.mod_eq_of_lt h32b]
      omega
    · intro n
      rw [count_single_loop_apply]
      simp only [mult_single_loop, eq_false h0, eq_false h1, if_false, ind]
      have hadd : min (len64 i k) (len64 l j) + max (len64 i k) (len64 l j)
          = len64 i k + len64 l j := min_add_max _ _
      have hn : ¬ ((min (len64 i k) (len64 l j) + max (len64 i k) (len64 l j)) % 2 ^ 64 ≤ 30) := by
        rw [hab]
        omega
      have hn2 : ¬ ((len64 i k + len64 l j) % 2 ^ 64 ≤ 30) := by
        rw [← hadd]
        exact hn
      simp [hn, hn2]
      intro hcon
      exfalso
      rw [h64] at hn2
      exact hn2 hcon
  · intro hpos h30
    have hmm : min (len64 i k) (len64 l j) ≤ max (len64 i k) (len64 l j) := min_le_max
    have h0 : ¬ max (len64 i k) (len64 l j) = 0 := by omega
    have h1 : ¬ min (len64 i k) (len64 l j) = 0 := by omega
    have hab : (min (len64 i k) (len64 l j) + max (len64 i k) (len64 l j)) % 2 ^ 64
        = min (len64 i k) (len64 l j) + max (len64 i k) (len64 l j) := by
      rw [h64]
      omega
    refine ⟨score_single_loop_internal T i j k l h0 h1, ?_, ?_⟩
    · rw [hab]
      simp only [u32, h32]
      omega
    · rw [count_single_loop_apply]
      simp only [mult_single_loop, eq_false h0, eq_false h1, if_false, ind, hab]
      have hadd : min (len64 i k) (len64 l j) + max (len64 i k) (len64 l j)
          = len64 i k + len64 l j := min_add_max _ _
      have h30a : (len64 i k + len64 l j) % 2 ^ 64 ≤ 30 := by
        rw [h64]
        omega
      simp [h30, hadd, h30a]
      intro hcon
      exfalso
      omega
  · intro hpos
    have hmm : min (len64 i k) (len64 l j) ≤ max (len64 i k) (len64 l j) := min_le_max
    have h0 : ¬ max (len64 i k) (len64 l j) = 0 := by omega
    have h1 : ¬ min (len64 i k) (len64 l j) = 0 := by omega
    refine ⟨?_, ?_, ?_⟩
    · rw [count_single_loop_apply]
      simp only [mult_single_loop, eq_false h0, eq_false h1, if_false, ind]
      simp
    · rw [count_single_loop_apply]
      simp only [mult_single_loop, eq_false h0, eq_false h1, if_false, ind]
      simp
    · intro hsym
      rw [count_single_loop_apply]
      simp only [mult_single_loop, eq_false h0, eq_false h1, if_false, ind]
      simp [hsym]

/-- Witness for amended claim C2: at i = 0, j = 46 the hairpin length
is 45 (over-long, below 2^32) and the count call leaves every
hairpin_length bucket unchanged. -/
theorem length_clamp_skip_amended_witness :
    30 < len64 0 46 ∧ len64 0 46 < 2 ^ 32
    ∧ (∀ n, count_hairpin 0 46 1 Tzero (Entry.hairpin_length n)
        = Tzero (Entry.hairpin_length n)) := by
  have h : len64 0 46 = 45 := by
    have h := len64_eq_of_lt 0 46 (by norm_num) (by norm_num)
    omega
  have h30 : 30 < len64 0 46 := by omega
  have h32b : len64 0 46 < 2 ^ 32 := by
    rw [h]
    norm_num
  exact ⟨h30, h32b, ((length_clamp_skip_amended 0 46 0 0 1 Tzero).1 h30 h32b).2⟩

/-- Claim C10 concrete table: 1 at bulge_length[0], 0 elsewhere. -/
def Tb0 : Tables := indTab (Entry.bulge_length 0)

/-- Claim C10: the bulge branch of score_single_loop truncates the
bulge length to 16 bits before clamping, so the bulge_length index read
is min(ll mod 2^16, 30); at ll = 65536 (tuple (0, 65538, 1, 1)) the
code therefore reads bulge_length[0] instead of the ceiling bucket 30;
the hairpin and internal clamps truncate to 32 bits (after the size_t
sum mod 2^64 for the internal branch); and count_single_loop's bulge
skip guard and index use the full-width length ll. -/
theorem bulge_u16_truncation (i j k l : ℕ) (v : ScoreType) (T : Tables) :
    (min (len64 i k) (len64 l j) = 0 → ¬ max (len64 i k) (len64 l j) = 0 →
      score_single_loop T i j k l =
        T (Entry.bulge_length (min (max (len64 i k) (len64 l j) % 2 ^ 16) 30))
          + T (Entry.base_internal (i + 1) (k - 1)) + T (Entry.base_internal (l + 1) (j - 1))
          + T (Entry.mismatch_internal i j) + T (Entry.mismatch_internal l k))
    ∧ (score_hairpin T i j =
        T (Entry.hairpin_length (min (len64 i j % 2 ^ 32) 30))
          + T (Entry.base_hairpin (i + 1) (j - 1)) + T (Entry.mismatch_hairpin i j))
    ∧ (¬ min (len64 i k) (len64 l j) = 0 → ¬ max (len64 i k) (len64 l j) = 0 →
      score_single_loop T i j k l =
        T (Entry.internal_length
            (min ((min (len64 i k) (len64 l j) + max (len64 i k) (len64 l j)) % 2 ^ 64 % 2 ^ 32) 30))
          + T (Entry.base_internal (i + 1) (k - 1)) + T (Entry.base_internal (l + 1) (j - 1))
          + T (Entry.internal_explicit (min (min (len64 i k) (len64 l j) % 2 ^ 32) 4)
              (min (max (len64 i k) (len64 l j) % 2 ^ 32) 4))
          + (if min (len64 i k) (len64 l j) = max (len64 i k) (len64 l j)
              then T (Entry.internal_symmetry (min (max (len64 i k) (len64 l j) % 2 ^ 32) 15))
              else 0)
          + T (Entry.internal_asymmetry
              (min ((max (len64 i k) (len64 l j) - min (len64 i k) (len64 l j)) % 2 ^ 32) 28))
          + T (Entry.mismatch_internal i j) + T (Entry.mismatch_internal l k))
    ∧ (min (len64 i k) (len64 l j) = 0 → ¬ max (len64 i k) (len64 l j) = 0 →
        (max (len64 i k) (len64 l j) ≤ 30 →
          count_single_loop i j k l v T (Entry.bulge_length (max (len64 i k) (len64 l j)))
            = T (Entry.bulge_length (max (len64 i k) (len64 l j))) + v)
        ∧ (30 < max (len64 i k) (len64 l j) →
            ∀ n, count_single_loop i j k l v T (Entry.bulge_length n)
              = T (Entry.bulge_length n)))
    ∧ (score_single_loop Tb0 0 65538 1 1 = 1
        ∧ Tb0 (Entry.bulge_length 0) = 1 ∧ Tb0 (Entry.bulge_length 30) = 0
        ∧ max (len64 0 1) (len64 1 65538) = 65536) := by
  have ha : len64 0 1 = 0 := by
    have h := len64_eq_of_lt 0 1 (by norm_num) (by norm_num)
    omega
  have hb : len64 1 65538 = 65536 := by
    have h := len64_eq_of_lt 1 65538 (by norm_num) (by norm_num)
    omega
  have hminc : min (len64 0 1) (len64 1 65538) = 0 := by
    rw [ha, hb]
    omega
  have hmaxc : max (len64 0 1) (len64 1 65538) = 65536 := by
    rw [ha, hb]
    omega
  have h0c : ¬ max (len64 0 1) (len64 1 65538) = 0 := by
    rw [hmaxc]
    norm_num
  refine ⟨?_, ?_, ?_, ?_, ?_, ?_, ?_, ?_⟩
  · intro hs h0
    rw [score_single_loop_bulge T i j k l h0 hs]
    simp only [bulge_score, u16]
  · simp only [score_hairpin, u32]
  · intro h1 h0
    rw [score_single_loop_internal T i j k l h0 h1]
    simp only [internal_score, u32]
  · intro hs h0
    constructor
    · intro h30
      rw [count_single_loop_apply]
      simp only [mult_single_loop, eq_false h0, if_false, eq_true hs, if_true, ind]
      simp [h30]
    · intro h30 n
      rw [count_single_loop_apply]
      simp only [mult_single_loop, eq_false h0, if_false, eq_true hs, if_true, ind]
      have hn : ¬ (max (len64 i k) (len64 l j) ≤ 30) := by omega
      simp [hn]
  · rw [score_single_loop_bulge Tb0 0 65538 1 1 h0c hminc]
    simp only [bulge_score, hmaxc]
    norm_num [u16, Tb0, indTab]
    simp
  · simp [Tb0, indTab]
  · simp [Tb0, indTab]
  · exact hmaxc

/-- Witness for claim C10 at the concrete bulge tuple (0, 7, 1, 2)
(ll = 4) with the all-zero tables. -/
theorem bulge_u16_truncation_witness :
    min (len64 0 1) (len64 2 7) = 0 ∧ ¬ max (len64 0 1) (len64 2 7) = 0
    ∧ score_single_loop Tzero 0 7 1 2 =
        Tzero (Entry.bulge_length (min (max (len64 0 1) (len64 2 7) % 2 ^ 16) 30))
          + Tzero (Entry.base_internal (0 + 1) (1 - 1)) + Tzero (Entry.base_internal (2 + 1) (7 - 1))
          + Tzero (Entry.mismatch_internal 0 7) + Tzero (Entry.mismatch_internal 2 1) := by
  have ha : len64 0 1 = 0 := by
    have h := len64_eq_of_lt 0 1 (by norm_num) (by norm_num)
    omega
  have hb : len64 2 7 = 4 := by
    have h := len64_eq_of_lt 2 7 (by norm_num) (by norm_num)
    omega
  have hmin : min (len64 0 1) (len64 2 7) = 0 := by
    rw [ha, hb]
    omega
  have h0 : ¬ max (len64 0 1) (len64 2 7) = 0 := by
    rw [ha, hb]
    omega
  exact ⟨hmin, h0, (bulge_u16_truncation 0 7 1 2 1 Tzero).1 hmin h0⟩

end PositionalNearestNeighbor
